import Mathlib

/-!
Verification of the Pubs SQL chat assistant.

A shallow embedding of the Python sources (`sql_generator.py`,
`database_client.py`, `chat_interface.py`, `app.py`).  Python strings are
modelled as `List Char`; the external effects (the hosted generation
endpoint, the ODBC driver, the wall clock) are modelled as explicit oracle
arguments describing the outcome of each call, and the functions record
which external interactions they performed so that claims about "no request
issued" or "connection not closed" are statable.
-/

/-- Character-list view of a string literal, the representation used for
Python strings throughout this development. -/
def s (x : String) : List Char := x.data

/-- The whitespace characters removed by Python `str.strip()`. -/
def pySpace (c : Char) : Bool :=
  c = ' ' || c = '\t' || c = '\n' || c = '\r' || c = '\x0b' || c = '\x0c'

/-- Python `str.strip()`: remove leading and trailing whitespace. -/
def pyStrip (l : List Char) : List Char :=
  ((l.dropWhile pySpace).reverse.dropWhile pySpace).reverse

/-- Python `str.replace(sub, "")` for a non-empty `sub`: delete every
left-to-right non-overlapping occurrence of `sub`. -/
def removeAll (sub : List Char) (l : List Char) : List Char :=
  match l with
  | [] => []
  | c :: rest =>
    if sub.isPrefixOf (c :: rest) && !sub.isEmpty then
      removeAll sub (rest.drop (sub.length - 1))
    else
      c :: removeAll sub rest
termination_by l.length
decreasing_by
  · simp [List.length_drop]
    omega
  · simp

/-- Python substring membership `sub in hay`. -/
def containsSub : List Char → List Char → Bool
  | [], sub => sub.isEmpty
  | c :: rest, sub => sub.isPrefixOf (c :: rest) || containsSub rest sub

namespace SQLGenerator

/-- The mutable fields of `SQLGenerator` that the embedded logic reads:
`self.model` (name of the configured model) and `self.api_key`. -/
structure State where
  model : Option (List Char)
  api_key : Option (List Char)

/-- `SQLGenerator.is_configured`: `self.model is not None and
self.api_key is not None`. -/
def is_configured (st : State) : Bool :=
  st.model.isSome && st.api_key.isSome

/-- The `required_keywords` list of `SQLGenerator._validate_sql`. -/
def required_keywords : List (List Char) := [s "SELECT", s "FROM"]

/-- `SQLGenerator._validate_sql`: reject empty or `"Error:"`-prefixed
strings, then require each keyword of `required_keywords` to occur in the
upper-cased query. -/
def _validate_sql (sql_query : List Char) : Bool :=
  if sql_query.isEmpty || (s "Error:").isPrefixOf sql_query then false
  else required_keywords.all (fun k => containsSub (sql_query.map Char.toUpper) k)

/-- The cleanup applied to the provider reply in `generate_sql`:
`response.text.strip()` followed by
`.replace("```sql", "").replace("```", "").strip()`. -/
def clean_response (t : List Char) : List Char :=
  pyStrip (removeAll (s "```") (removeAll (s "```sql") (pyStrip t)))

/-- Outcome of the `self.model.generate_content(prompt)` call: either the
exception it raised or the text of its first response. -/
inductive ProviderResponse where
  | err (message : List Char)
  | ok (text : List Char)

/-- Result of one `generate_sql` call: the returned string together with
whether the provider request was actually issued. -/
structure GenOutcome where
  output : List Char
  providerCalled : Bool

/-- The sentinel returned by `generate_sql` when unconfigured. -/
def unconfigured_msg : List Char :=
  s "Error: API Key no configurada. Verifica el archivo .env"

/-- `SQLGenerator.generate_sql`, with the provider call's outcome passed as
an oracle.  The question only feeds the prompt, which the provider oracle
abstracts. -/
def generate_sql (st : State) (_natural_language_query : List Char)
    (resp : ProviderResponse) : GenOutcome :=
  if is_configured st then
    match resp with
    | .err e => ⟨s "Error: " ++ e, true⟩
    | .ok t =>
      let sql_query := clean_response t
      if _validate_sql sql_query then ⟨sql_query, true⟩
      else ⟨s "Error: Consulta SQL no válida generada: " ++ sql_query, true⟩
  else ⟨unconfigured_msg, false⟩

/-- The `preferred_models` priority list of `_get_compatible_model`. -/
def preferred_models : List (List Char) :=
  [s "gemini-1.5-pro", s "gemini-1.5-flash", s "gemini-1.0-pro", s "gemini-pro"]

/-- The nested loop of `_get_compatible_model`: for each preferred name in
priority order, return the first available name containing it. -/
def select_loop : List (List Char) → List (List Char) → Option (List Char)
  | [], _ => none
  | p :: ps, available_models =>
    match available_models.find? (fun a => containsSub a p) with
    | some a => some a
    | none => select_loop ps available_models

/-- Model selection as a pure function of the available model names: the
preferred-match loop, falling back to the first available model, and `none`
when no model is available. -/
def select_model (available_models : List (List Char)) : Option (List Char) :=
  match select_loop preferred_models available_models with
  | some a => some a
  | none => available_models.head?

/-- Restatement of the spec's description of model selection, for
comparison with `select_model`: find the first preference that matches some
available name, return the first available name containing it; if no
preference matches, the first available name; `none` on an empty list. -/
def select_model_spec (available_models : List (List Char)) : Option (List Char) :=
  match preferred_models.find? (fun p => available_models.any (fun a => containsSub a p)) with
  | some p => available_models.find? (fun a => containsSub a p)
  | none => available_models.head?

/-- `SQLGenerator._get_compatible_model`, with the outcome of
`genai.list_models()` passed as an oracle: an exception there is caught and
yields `None`, otherwise the selection runs on the listed names. -/
def _get_compatible_model
    (listResult : Except (List Char) (List (List Char))) : Option (List Char) :=
  match listResult with
  | .error _ => none
  | .ok available_models => select_model available_models

/-- Outcome of the `genai.configure(api_key=...)` call. -/
inductive ConfigureOutcome where
  | ok
  | raises (e : List Char)

/-- `SQLGenerator.set_api_key`: store the key, configure the provider and
pick a model; any exception is caught and reported as `false`.  Returns the
updated state and the boolean result. -/
def set_api_key (st : State) (api_key : List Char) (cfg : ConfigureOutcome)
    (listResult : Except (List Char) (List (List Char))) : State × Bool :=
  match cfg with
  | .raises _ => ({ st with api_key := some api_key }, false)
  | .ok => ({ model := _get_compatible_model listResult, api_key := some api_key }, true)

end SQLGenerator

namespace DatabaseClient

/-- The mutable field of `DatabaseClient` that the embedded logic reads. -/
structure State where
  connection_string : Option (List Char)

/-- `DatabaseClient.is_configured`: `self.connection_string is not None and
len(self.connection_string) > 0`. -/
def is_configured (st : State) : Bool :=
  match st.connection_string with
  | none => false
  | some c => decide (0 < c.length)

/-- The tabular result materialized by `pd.read_sql_query`: rows of
string-rendered cells. -/
abbrev DataFrame := List (List (List Char))

/-- Outcome of the database interaction inside `execute_query`: the connect
call raises, the read raises after a successful connect, or both succeed. -/
inductive DbOutcome where
  | connectFail (e : List Char)
  | readFail (e : List Char)
  | ok (df : DataFrame)

/-- Result of one `execute_query` call, recording which steps of the
connection lifecycle were reached. -/
structure ExecOutcome where
  result : Option DataFrame
  connectAttempted : Bool
  connectionOpened : Bool
  connectionClosed : Bool

/-- `DatabaseClient.execute_query`, with the driver interaction passed as
an oracle.  On the `readFail` path the code jumps to the `except` handler
before the `conn.close()` line, so the opened connection is not closed. -/
def execute_query (st : State) (_sql_query : List Char) (db : DbOutcome) : ExecOutcome :=
  if is_configured st then
    match db with
    | .connectFail _ => ⟨none, true, false, false⟩
    | .readFail _ => ⟨none, true, true, false⟩
    | .ok df => ⟨some df, true, true, true⟩
  else ⟨none, false, false, false⟩

end DatabaseClient

namespace ChatInterface

/-- One entry of `st.session_state.messages`. -/
structure ChatMessage where
  role : List Char
  content : List Char
  timestamp : List Char
deriving DecidableEq

/-- `ChatInterface.add_message`: append a record carrying the given clock
reading (`datetime.now().isoformat()`) to the history. -/
def add_message (messages : List ChatMessage) (role content now : List Char) :
    List ChatMessage :=
  messages ++ [⟨role, content, now⟩]

/-- A sequence of `add_message` calls, each with its role, content and
clock reading. -/
def add_messages (messages : List ChatMessage) :
    List (List Char × List Char × List Char) → List ChatMessage
  | [] => messages
  | (r, c, t) :: rest => add_messages (add_message messages r c t) rest

/-- The `role_icon` picked inside `export_chat`. -/
def role_icon (role : List Char) : List Char :=
  if role = s "user" then s "👤" else s "🤖"

/-- The `role_text` picked inside `export_chat`. -/
def role_text (role : List Char) : List Char :=
  if role = s "user" then s "Usuario" else s "Assistant"

/-- The heading that opens message `i`'s block in the export:
`"## {role_icon} {role_text} - Mensaje {i+1}"`. -/
def message_label (i : Nat) (m : ChatMessage) : List Char :=
  s "## " ++ role_icon m.role ++ s " " ++ role_text m.role ++
    s " - Mensaje " ++ s (toString (i + 1))

/-- The three lines appended for message `i` in `export_chat`'s loop. -/
def render_block (i : Nat) (m : ChatMessage) : List Char :=
  message_label i m ++ s "\n\n" ++ m.content ++ s "\n\n---\n\n"

/-- The header `export_chat` emits before the loop, with the formatted
export time passed in. -/
def export_header (now : List Char) : List Char :=
  s "# Historial de Chat - Pubs SQL Assistant\n\n" ++ s "Exportado: " ++ now ++ s "\n\n"

/-- The `for i, message in enumerate(...)` loop of `export_chat`, started
at index `i`. -/
def export_loop (i : Nat) : List ChatMessage → List Char
  | [] => []
  | m :: rest => render_block i m ++ export_loop (i + 1) rest

/-- `ChatInterface.export_chat`, with the formatted export timestamp
passed in. -/
def export_chat (messages : List ChatMessage) (now : List Char) : List Char :=
  if messages.isEmpty then s "No hay mensajes para exportar"
  else export_header now ++ export_loop 0 messages

/-- The blocks produced by `export_chat`'s loop, kept as a list (one entry
per message) instead of concatenated. -/
def export_blocks (i : Nat) : List ChatMessage → List (List Char)
  | [] => []
  | m :: rest => render_block i m :: export_blocks (i + 1) rest

end ChatInterface

/-- A prefix of `t` is a prefix of `t ++ e`. -/
lemma prefix_of_append {p t : List Char} (e : List Char) (h : p.isPrefixOf t = true) :
    p.isPrefixOf (t ++ e) = true := by
  rw [ List.isPrefixOf_iff_prefix] at h ⊢
  exact h.trans (List.prefix_append t e)

/-- Characterization of `_validate_sql`: it accepts exactly the strings
that do not start with `"Error:"` and contain both keywords
case-insensitively (an empty string contains neither keyword). -/
lemma validate_sql_true_iff (q : List Char) :
    SQLGenerator._validate_sql q = true ↔
      ((s "Error:").isPrefixOf q = false ∧
       containsSub (q.map Char.toUpper) (s "SELECT") = true ∧
       containsSub (q.map Char.toUpper) (s "FROM") = true) := by
  rcases q with _ | ⟨c, rest⟩
  · decide
  · rw [SQLGenerator._validate_sql]
    cases hpre : (s "Error:").isPrefixOf (c :: rest) <;>
      simp [SQLGenerator.required_keywords, hpre, and_assoc]

/-- A string accepted by `_validate_sql` is non-empty. -/
lemma validate_sql_ne_nil {q : List Char} (h : SQLGenerator._validate_sql q = true) :
    q ≠ [] := by
  intro h0
  rw [h0] at h
  exact absurd h (by decide)

/-- C1: for every question, `generate_sql` returns either an
`"Error:"`-prefixed sentinel or the stripped, fence-free cleanup of the
provider's reply, which is then non-empty and contains both `SELECT` and
`FROM` as case-insensitive substrings; an empty string is never returned as
a success. -/
theorem generate_sql_shape (st : SQLGenerator.State) (question : List Char)
    (resp : SQLGenerator.ProviderResponse) :
    (s "Error:").isPrefixOf (SQLGenerator.generate_sql st question resp).output = true ∨
    (∃ t, resp = SQLGenerator.ProviderResponse.ok t ∧
      (SQLGenerator.generate_sql st question resp).output = SQLGenerator.clean_response t ∧
      (SQLGenerator.generate_sql st question resp).output ≠ [] ∧
      containsSub ((SQLGenerator.generate_sql st question resp).output.map Char.toUpper)
        (s "SELECT") = true ∧
      containsSub ((SQLGenerator.generate_sql st question resp).output.map Char.toUpper)
        (s "FROM") = true) := by
  rw [SQLGenerator.generate_sql.eq_def]
  cases hcfg : SQLGenerator.is_configured st
  · simp only [hcfg, Bool.false_eq_true, if_false]
    exact Or.inl (by decide)
  · simp only [hcfg, if_true]
    cases resp with
    | err e =>
      exact Or.inl (prefix_of_append e (by decide))
    | ok t =>
      simp only
      cases hv : SQLGenerator._validate_sql (SQLGenerator.clean_response t)
      · simp only [hv, Bool.false_eq_true, if_false]
        exact Or.inl (prefix_of_append _ (by decide))
      · simp only [hv, if_true]
        obtain ⟨hpre, hsel, hfrom⟩ := (validate_sql_true_iff _).mp hv
        exact Or.inr ⟨t, rfl, rfl, validate_sql_ne_nil hv, hsel, hfrom⟩

/-- C2 counterexample: a string that contains both `SELECT` and `FROM`
case-insensitively and is nevertheless rejected by `_validate_sql`
(because it starts with `"Error:"`), refuting the claimed equivalence. -/
theorem validate_sql_iff_counterexample :
    containsSub ((s "Error: SELECT x FROM t").map Char.toUpper) (s "SELECT") = true ∧
    containsSub ((s "Error: SELECT x FROM t").map Char.toUpper) (s "FROM") = true ∧
    SQLGenerator._validate_sql (s "Error: SELECT x FROM t") = false := by
  decide

/-- C2 (amended): `_validate_sql` accepts a string exactly when it does not
start with `"Error:"` and both `SELECT` and `FROM` occur in it as
case-insensitive substrings; in particular `"DROP TABLE authors"` is
rejected while `"SELECT * FROM authors; DROP TABLE authors"` is
accepted. -/
theorem validate_sql_characterization :
    (∀ q : List Char, SQLGenerator._validate_sql q = true ↔
      ((s "Error:").isPrefixOf q = false ∧
       containsSub (q.map Char.toUpper) (s "SELECT") = true ∧
       containsSub (q.map Char.toUpper) (s "FROM") = true)) ∧
    SQLGenerator._validate_sql (s "DROP TABLE authors") = false ∧
    SQLGenerator._validate_sql (s "SELECT * FROM authors; DROP TABLE authors") = true :=
  ⟨validate_sql_true_iff, by decide, by decide⟩

/-- C3: with no model or API key configured, `generate_sql` returns the
Unconfigured sentinel for every input and never issues a provider
request. -/
theorem generate_sql_unconfigured (st : SQLGenerator.State) (question : List Char)
    (resp : SQLGenerator.ProviderResponse)
    (h : SQLGenerator.is_configured st = false) :
    SQLGenerator.generate_sql st question resp =
      ⟨SQLGenerator.unconfigured_msg, false⟩ := by
  rw [SQLGenerator.generate_sql.eq_def]
  simp [h]

/-- C3 witness: the freshly constructed state (no model, no key) at a
concrete question and provider reply. -/
theorem generate_sql_unconfigured_witness :
    SQLGenerator.is_configured ⟨none, none⟩ = false ∧
    SQLGenerator.generate_sql ⟨none, none⟩ (s "Autores de California")
        (SQLGenerator.ProviderResponse.ok (s "SELECT 1")) =
      ⟨SQLGenerator.unconfigured_msg, false⟩ :=
  ⟨by decide, generate_sql_unconfigured _ _ _ (by decide)⟩

/-- C4: with the connection string absent or empty, `execute_query`
returns no result and never even attempts to open a connection. -/
theorem execute_query_unconfigured (st : DatabaseClient.State) (sql : List Char)
    (db : DatabaseClient.DbOutcome)
    (h : st.connection_string = none ∨ st.connection_string = some []) :
    DatabaseClient.execute_query st sql db = ⟨none, false, false, false⟩ := by
  have hc : DatabaseClient.is_configured st = false := by
    rcases h with h | h <;> simp [DatabaseClient.is_configured, h]
  rw [DatabaseClient.execute_query.eq_def]
  simp [hc]

/-- C4 witness: a client with no connection string, at a concrete query
and driver outcome. -/
theorem execute_query_unconfigured_witness :
    ((⟨none⟩ : DatabaseClient.State).connection_string = none ∨
      (⟨none⟩ : DatabaseClient.State).connection_string = some []) ∧
    DatabaseClient.execute_query ⟨none⟩ (s "SELECT * FROM authors")
        (DatabaseClient.DbOutcome.ok []) = ⟨none, false, false, false⟩ :=
  ⟨Or.inl rfl, execute_query_unconfigured _ _ _ (Or.inl rfl)⟩

/-- C5: at the failing input (a configured client whose read raises after
a successful connect) `execute_query` takes the `except` path before the
`conn.close()` line: it returns no result with the connection opened but
never closed, contradicting the claim that the connection is closed
unconditionally on every path. -/
theorem execute_query_leaks_connection_on_read_failure :
    DatabaseClient.execute_query
        ⟨some (s "DRIVER=SQL Server;SERVER=srv;DATABASE=pubs")⟩
        (s "SELECT * FROM missing_table")
        (DatabaseClient.DbOutcome.readFail (s "Invalid object name")) =
      ⟨none, true, true, false⟩ := by
  rfl

/-- C6: no modelled failure escapes as an exception: a provider exception
makes `generate_sql` return an `"Error:"`-prefixed string, a configure
exception makes `set_api_key` return `false`, and a connect or read
exception makes `execute_query` return `None`. -/
theorem failures_return_sentinels :
    (∀ (st : SQLGenerator.State) (q e : List Char),
      (s "Error:").isPrefixOf
        (SQLGenerator.generate_sql st q (SQLGenerator.ProviderResponse.err e)).output =
          true) ∧
    (∀ (st : SQLGenerator.State) (key e : List Char)
        (lr : Except (List Char) (List (List Char))),
      (SQLGenerator.set_api_key st key (SQLGenerator.ConfigureOutcome.raises e) lr).2 =
        false) ∧
    (∀ (st : DatabaseClient.State) (sql e : List Char),
      (DatabaseClient.execute_query st sql
          (DatabaseClient.DbOutcome.connectFail e)).result = none ∧
      (DatabaseClient.execute_query st sql
          (DatabaseClient.DbOutcome.readFail e)).result = none) := by
  refine ⟨?_, ?_, ?_⟩
  · intro st q e
    rw [SQLGenerator.generate_sql.eq_def]
    cases hcfg : SQLGenerator.is_configured st
    · simp only [hcfg, Bool.false_eq_true, if_false]
      decide
    · simp only [hcfg, if_true]
      exact prefix_of_append e (by decide)
  · intro st key e lr
    rfl
  · intro st sql e
    rw [DatabaseClient.execute_query.eq_def, DatabaseClient.execute_query.eq_def]
    cases hc : DatabaseClient.is_configured st <;> simp [hc]

/-- One step of the preferred-model loop agrees with the find-first
description: scan the preferences in order, and for the first one matched
by some available name return the first such name. -/
lemma select_loop_eq (ps available_models : List (List Char)) :
    SQLGenerator.select_loop ps available_models =
      (ps.find? (fun p => available_models.any (fun a => containsSub a p))).bind
        (fun p => available_models.find? (fun a => containsSub a p)) := by
  induction ps with
  | nil => rfl
  | cons p ps ih =>
    rw [SQLGenerator.select_loop.eq_def]
    cases hf : available_models.find? (fun a => containsSub a p) with
    | none =>
      have hany : available_models.any (fun a => containsSub a p) = false := by
        rw [List.any_eq_false]
        intro x hx
        simpa using List.find?_eq_none.mp hf x hx
      simp [List.find?_cons, hany, hf, ih]
    | some a =>
      have hpa := List.find?_some hf
      have hany : available_models.any (fun a => containsSub a p) = true := by
        rw [List.any_eq_true]
        exact ⟨a, List.mem_of_find?_eq_some hf, by simpa using hpa⟩
      simp [List.find?_cons, hany, hf]

/-- C7: the code's model selection coincides with the spec's description
(first preferred entry with a substring match against some available name,
scanned in priority order, then the first such available name; otherwise
the first available name), and an empty available list selects no model. -/
theorem model_selection_matches_spec :
    (∀ available_models : List (List Char),
      SQLGenerator.select_model available_models =
        SQLGenerator.select_model_spec available_models) ∧
    SQLGenerator.select_model [] = none := by
  constructor
  · intro available_models
    rw [SQLGenerator.select_model, SQLGenerator.select_model_spec, select_loop_eq]
    cases hf : SQLGenerator.preferred_models.find?
        (fun p => available_models.any (fun a => containsSub a p)) with
    | none => simp
    | some p =>
      have hp := List.find?_some hf
      obtain ⟨a, ha, hpa⟩ := List.any_eq_true.mp (by simpa using hp)
      have hs : (available_models.find? (fun a => containsSub a p)).isSome = true :=
        List.find?_isSome.mpr ⟨a, ha, hpa⟩
      cases hfa : available_models.find? (fun a => containsSub a p) with
      | none => rw [hfa] at hs; exact absurd hs (by simp)
      | some b => simp [hfa]
  · rfl

/-- Any list is a prefix (in the Boolean sense) of itself followed by more. -/
lemma isPrefixOf_append_self (p e : List Char) : p.isPrefixOf (p ++ e) = true := by
  rw [ List.isPrefixOf_iff_prefix]
  exact List.prefix_append p e

/-- A run of `add_message` calls appends the corresponding records, in
order, to the existing history. -/
lemma add_messages_eq (init : List ChatInterface.ChatMessage)
    (calls : List (List Char × List Char × List Char)) :
    ChatInterface.add_messages init calls =
      init ++ calls.map (fun c => ⟨c.1, c.2.1, c.2.2⟩) := by
  induction calls generalizing init with
  | nil => simp [ChatInterface.add_messages]
  | cons c rest ih =>
    obtain ⟨r, cc, t⟩ := c
    rw [ChatInterface.add_messages, ih]
    simp [ChatInterface.add_message]

/-- C8: a sequence of N `add_message` calls yields exactly the N appended
records at the end of the history, in insertion order, with matching roles,
contents and clock readings — no deduplication and no size cap. -/
theorem transcript_append_order :
    ∀ (init : List ChatInterface.ChatMessage)
      (calls : List (List Char × List Char × List Char)),
      ChatInterface.add_messages init calls =
        init ++ calls.map (fun c => ⟨c.1, c.2.1, c.2.2⟩) ∧
      (ChatInterface.add_messages [] calls).length = calls.length ∧
      (ChatInterface.add_messages [] calls).map (fun m => (m.role, m.content)) =
        calls.map (fun c => (c.1, c.2.1)) ∧
      (ChatInterface.add_messages [] calls).map (fun m => m.timestamp) =
        calls.map (fun c => c.2.2) := by
  intro init calls
  refine ⟨add_messages_eq init calls, ?_, ?_, ?_⟩
  · rw [add_messages_eq, List.nil_append]
    exact List.length_map _ _
  · rw [add_messages_eq, List.nil_append, List.map_map]
    rfl
  · rw [add_messages_eq, List.nil_append, List.map_map]
    rfl

/-- The export loop produces one block per message. -/
lemma export_blocks_length (i : Nat) (messages : List ChatInterface.ChatMessage) :
    (ChatInterface.export_blocks i messages).length = messages.length := by
  induction messages generalizing i with
  | nil => rfl
  | cons m rest ih => simp [ChatInterface.export_blocks, ih]

/-- The concatenated export loop is the concatenation of its blocks. -/
lemma export_loop_eq_flatten (i : Nat) (messages : List ChatInterface.ChatMessage) :
    ChatInterface.export_loop i messages =
      (ChatInterface.export_blocks i messages).flatten := by
  induction messages generalizing i with
  | nil => rfl
  | cons m rest ih => simp [ChatInterface.export_loop, ChatInterface.export_blocks, ih]

/-- The k-th block of the export loop started at `i` renders the k-th
message with index `i + k`. -/
lemma export_blocks_get (i k : Nat) (messages : List ChatInterface.ChatMessage)
    (hb : k < (ChatInterface.export_blocks i messages).length)
    (hm : k < messages.length) :
    (ChatInterface.export_blocks i messages).get ⟨k, hb⟩ =
      ChatInterface.render_block (i + k) (messages.get ⟨k, hm⟩) := by
  induction messages generalizing i k with
  | nil => exact absurd hm (by simp)
  | cons m rest ih =>
    cases k with
    | zero => simp [ChatInterface.export_blocks]
    | succ k =>
      have hb' : k < (ChatInterface.export_blocks (i + 1) rest).length := by
        simpa [ChatInterface.export_blocks] using hb
      have hm' : k < rest.length := by simpa using hm
      have ihk := ih (i + 1) k hb' hm'
      have h1 : (ChatInterface.export_blocks i (m :: rest)).get ⟨k + 1, hb⟩ =
          (ChatInterface.export_blocks (i + 1) rest).get ⟨k, hb'⟩ := rfl
      have h2 : (m :: rest).get ⟨k + 1, hm⟩ = rest.get ⟨k, hm'⟩ := rfl
      rw [h1, h2, ihk]
      congr 1
      omega

/-- C9: exporting an empty transcript returns the sentinel string; a
non-empty transcript of N messages exports as the header followed by
exactly N blocks in chronological order, the k-th block rendering the k-th
message and starting with its role label and 1-based index. -/
theorem chat_export_shape (messages : List ChatInterface.ChatMessage) (now : List Char) :
    ChatInterface.export_chat [] now = s "No hay mensajes para exportar" ∧
    (messages ≠ [] →
      (ChatInterface.export_blocks 0 messages).length = messages.length ∧
      ChatInterface.export_chat messages now =
        ChatInterface.export_header now ++
          (ChatInterface.export_blocks 0 messages).flatten ∧
      ∀ (k : Nat) (hm : k < messages.length),
        ∃ hb : k < (ChatInterface.export_blocks 0 messages).length,
          (ChatInterface.export_blocks 0 messages).get ⟨k, hb⟩ =
            ChatInterface.render_block k (messages.get ⟨k, hm⟩) ∧
          (ChatInterface.message_label k (messages.get ⟨k, hm⟩)).isPrefixOf
            ((ChatInterface.export_blocks 0 messages).get ⟨k, hb⟩) = true) := by
  refine ⟨rfl, fun hne => ⟨export_blocks_length 0 messages, ?_, ?_⟩⟩
  · rw [ChatInterface.export_chat]
    have hemp : messages.isEmpty = false := by
      cases messages with
      | nil => exact absurd rfl hne
      | cons m rest => rfl
    rw [hemp]
    simp [export_loop_eq_flatten]
  · intro k hm
    have hb : k < (ChatInterface.export_blocks 0 messages).length := by
      rw [export_blocks_length]
      exact hm
    have hg := export_blocks_get 0 k messages hb hm
    refine ⟨hb, ?_, ?_⟩
    · simpa using hg
    · rw [hg]
      simp only [Nat.zero_add]
      rw [ChatInterface.render_block]
      exact prefix_of_append _ (prefix_of_append _ (isPrefixOf_append_self _ _))

/-- C9 witness: a one-message transcript at a concrete export time. -/
theorem chat_export_shape_witness :
    (([⟨s "user", s "hola", s "t0"⟩] : List ChatInterface.ChatMessage) ≠ []) ∧
    ((ChatInterface.export_blocks 0 [⟨s "user", s "hola", s "t0"⟩]).length =
        ([⟨s "user", s "hola", s "t0"⟩] : List ChatInterface.ChatMessage).length ∧
      ChatInterface.export_chat [⟨s "user", s "hola", s "t0"⟩] (s "2024-01-01 00:00:00") =
        ChatInterface.export_header (s "2024-01-01 00:00:00") ++
          (ChatInterface.export_blocks 0 [⟨s "user", s "hola", s "t0"⟩]).flatten ∧
      ∀ (k : Nat)
        (hm : k < ([⟨s "user", s "hola", s "t0"⟩] : List ChatInterface.ChatMessage).length),
        ∃ hb : k < (ChatInterface.export_blocks 0 [⟨s "user", s "hola", s "t0"⟩]).length,
          (ChatInterface.export_blocks 0 [⟨s "user", s "hola", s "t0"⟩]).get ⟨k, hb⟩ =
            ChatInterface.render_block k
              (([⟨s "user", s "hola", s "t0"⟩] : List ChatInterface.ChatMessage).get
                ⟨k, hm⟩) ∧
          (ChatInterface.message_label k
              (([⟨s "user", s "hola", s "t0"⟩] : List ChatInterface.ChatMessage).get
                ⟨k, hm⟩)).isPrefixOf
            ((ChatInterface.export_blocks 0 [⟨s "user", s "hola", s "t0"⟩]).get
              ⟨k, hb⟩) = true) :=
  ⟨by simp, (chat_export_shape _ _).2 (by simp)⟩

/-- C10: `generate_sql`'s output starts with `"Error:"` exactly when the
call failed, i.e. unless the generator was configured, the provider call
returned text, and the cleaned text passed validation — so the caller's
`startswith("Error:")` test distinguishes success from failure. -/
theorem generate_sql_error_prefix_iff (st : SQLGenerator.State) (question : List Char)
    (resp : SQLGenerator.ProviderResponse) :
    (s "Error:").isPrefixOf (SQLGenerator.generate_sql st question resp).output = true ↔
      ¬ (SQLGenerator.is_configured st = true ∧
         ∃ t, resp = SQLGenerator.ProviderResponse.ok t ∧
           SQLGenerator._validate_sql (SQLGenerator.clean_response t) = true) := by
  rw [SQLGenerator.generate_sql.eq_def]
  cases hcfg : SQLGenerator.is_configured st
  · simp only [hcfg, Bool.false_eq_true, if_false, false_and, not_false_eq_true, iff_true]
    decide
  · simp only [hcfg, if_true, true_and]
    cases resp with
    | err e =>
      constructor
      · rintro - ⟨t, ht, -⟩
        exact absurd ht (by simp)
      · intro _
        exact prefix_of_append e (by decide)
    | ok t =>
      cases hv : SQLGenerator._validate_sql (SQLGenerator.clean_response t)
      · simp only [hv, Bool.false_eq_true, if_false]
        constructor
        · rintro - ⟨t', ht', hv'⟩
          injection ht' with h
          rw [← h, hv] at hv'
          exact Bool.noConfusion hv'
        · intro _
          exact prefix_of_append _ (by decide)
      · simp only [hv, if_true]
        constructor
        · intro hpre
          have hfalse := ((validate_sql_true_iff _).mp hv).1
          rw [hfalse] at hpre
          exact Bool.noConfusion hpre
        · intro hn
          exact absurd ⟨t, rfl, hv⟩ hn
